import Mathlib

/-!
# Verification of the Node Refresh Operator

A shallow embedding of `src/node_refresh_controller.py` (class
`NodeRefreshOperator`).  Time is modelled as `Nat` (minutes since an
epoch); the Kubernetes API is modelled by explicit inputs: a list call
that can fail is an `Except Unit` (or `Except String` where the source
lets the exception escape and its text reaches a status message), and
per-pod outcomes that depend on the cluster are function parameters.
The status subresource is a `Status` record; `_update_status` merges the
given keys into the stored status, which is modelled by record updates.
-/

namespace NodeRefresh

/-- Modelled from the spec: the third-party `croniter` library.  §4.3
describes its use as "Compute the next firing time
`nextFire = firstCronTick > now`".  A cron expression is modelled as a
periodic tick set: ticks at times `t` with `t % period = offset % period`
(e.g. `"0 2 * * *"` with minute-granularity time is `period = 1440`,
`offset = 120`). -/
structure Cron where
  period : Nat
  offset : Nat
deriving DecidableEq

/-- Modelled from the spec: `croniter(schedule, base).get_next(datetime)` —
the first cron tick strictly after `base`. -/
def cronNext (c : Cron) (t : Nat) : Nat :=
  if c.period = 0 then t + 1
  else
    let r := c.offset % c.period
    let cand := (t / c.period) * c.period + r
    if t < cand then cand else cand + c.period

/-- The spec fields of a `NodeRefresh` object (`obj['spec']`).
`refreshSchedule` is an optional cron string; parsing it with `croniter`
either yields a `Cron` or raises with some exception text, so it is
embedded as `Option (Except String Cron)`. -/
structure NRSpec where
  refreshSchedule : Option (Except String Cron)
  targetNodeLabels : List (String × String)
  maxPodsToMoveAtOnce : Option Nat
  gracePeriodSeconds : Option Nat
  minHealthThreshold : Option Nat

/-- The status subresource (`obj['status']`, a dict).  Every field can be
absent, which Python reads back via `status.get(key, default)`; hence
`Option` everywhere.  `conditions` is omitted: no claim concerns it. -/
structure Status where
  phase : Option String
  currentNode : Option String
  totalNodes : Option Nat
  nodesRefreshed : Option (List String)
  podsMovedSuccessfully : Option Nat
  podsMovesFailed : Option Nat
  retryCount : Option Nat
  lastRefreshTime : Option Nat
  nextRefreshTime : Option Nat
  message : Option String
deriving DecidableEq

/-- A fresh status dict (`obj.get('status', {})` on a new object). -/
def Status.empty : Status :=
  ⟨none, none, none, none, none, none, none, none, none, none⟩

/-- Python's f-string rendering of a possibly-absent name
(`None` prints as `"None"`). -/
def optName (o : Option String) : String :=
  match o with
  | some s => s
  | none => "None"

/-- A pod, with the metadata the controller reads: namespace, labels
(`pod.metadata.labels or {}` — absent labels behave as the empty dict,
so a plain list), and owner references as (kind, name) pairs. -/
structure Pod where
  name : String
  ns : String
  labels : List (String × String)
  ownerRefs : List (String × String)
deriving DecidableEq

/-- `_is_daemonset_pod`: `False` when `owner_references` is empty/absent,
otherwise whether any owner reference has kind `DaemonSet`. -/
def is_daemonset_pod (p : Pod) : Bool :=
  p.ownerRefs.any (fun r => r.1 == "DaemonSet")

/-- `_get_pod_owner`: the first owner reference as a (kind, name) record,
`None` when there are no owner references. -/
def get_pod_owner (p : Pod) : Option (String × String) :=
  p.ownerRefs.head?

/-- `_get_target_nodes`: `list_node(label_selector=…)` returns the items
on success; an `ApiException` is caught, logged, and an empty list is
returned.  Nodes are identified by name. -/
def get_target_nodes (r : Except Unit (List String)) : List String :=
  match r with
  | Except.ok items => items
  | Except.error _ => []

/-- `_is_node_ready` over the node's condition list of (type, status)
pairs: the first condition of type `Ready` decides; no conditions, or no
`Ready` condition, is not ready. -/
def is_node_ready (conds : List (String × String)) : Bool :=
  match conds with
  | [] => false
  | c :: rest => if c.1 == "Ready" then c.2 == "True" else is_node_ready rest

/-- `_check_cluster_health threshold`: list all pods (an `ApiException`
is caught and yields `False`); with zero pods return `True`; otherwise
`running / total * 100 ≥ threshold`, embedded as the exact comparison
`running * 100 ≥ threshold * total`.  The input is the list of pod
phases. -/
def check_cluster_health (r : Except Unit (List String)) (threshold : Nat) : Bool :=
  match r with
  | Except.error _ => false
  | Except.ok phases =>
    let total := phases.length
    if total = 0 then true
    else
      let running := (phases.filter (fun p => p == "Running")).length
      decide (running * 100 ≥ threshold * total)

/-- `_get_pods_on_node`: list pods with field selector
`spec.nodeName=node` (an `ApiException` is caught and yields `[]`), then
drop DaemonSet-owned pods and pods in `kube-system` / `kube-public`. -/
def get_pods_on_node (r : Except Unit (List Pod)) : List Pod :=
  match r with
  | Except.error _ => []
  | Except.ok pods =>
    pods.filter (fun p =>
      !is_daemonset_pod p && !(p.ns == "kube-system") && !(p.ns == "kube-public"))

/-- The due-verdict of `_is_refresh_due` (the schedule is already known
to parse).  `next_run` is computed by `croniter(schedule, utcnow())`,
i.e. from `now`; with no `lastRefreshTime` the refresh is due, otherwise
due iff `utcnow() ≥ next_run`.  (The source also parses
`lastRefreshTime` into `last_refresh_dt` but never uses it.) -/
def is_refresh_due (schedule : Option Cron) (lastRefresh : Option Nat) (now : Nat) : Bool :=
  match schedule with
  | none => true
  | some c =>
    let next_run := cronNext c now
    match lastRefresh with
    | none => true
    | some _ => decide (now ≥ next_run)

/-- The due-verdict as §4.3 of the spec words it: "due iff
`now ≥ nextFire` computed from `lastRefreshTime`"; absent
`lastRefreshTime` means due.  Written from the spec, for comparison with
`is_refresh_due` (the code). -/
def is_refresh_due_spec (schedule : Option Cron) (lastRefresh : Option Nat) (now : Nat) : Bool :=
  match schedule with
  | none => true
  | some c =>
    match lastRefresh with
    | none => true
    | some last => decide (now ≥ cronNext c last)

/-- A PodDisruptionBudget: its name, its `spec.selector` (absent
selector, or a selector whose `match_labels` dict is absent, is `none`;
a present `match_labels` dict is the pair list — note the source treats
an empty dict the same as an absent one, which the embedding keeps by
testing emptiness), and `status.disruptions_allowed`. -/
structure PDB where
  name : String
  matchLabels : Option (List (String × String))
  disruptionsAllowed : Nat
deriving DecidableEq

/-- `_selector_matches_pod`: `False` when the selector or its
`match_labels` is falsy (absent or empty); otherwise every
key/value pair of `match_labels` must be present and equal in the pod's
labels (`pod_labels.get(key) != value` rejects). -/
def selector_matches_pod (sel : Option (List (String × String))) (pod : Pod) : Bool :=
  match sel with
  | none => false
  | some ml =>
    if ml.isEmpty then false
    else ml.all (fun kv => pod.labels.lookup kv.1 == some kv.2)

/-- The loop body of `_check_pdb_allows_eviction` over the listed PDBs:
the FIRST PDB whose selector matches the pod decides —
`disruptions_allowed > 0` returns `True`, otherwise `False`; with no
matching PDB the result is `True`. -/
def check_pdb_loop (pdbs : List PDB) (pod : Pod) : Bool :=
  match pdbs with
  | [] => true
  | pdb :: rest =>
    if selector_matches_pod pdb.matchLabels pod then
      decide (pdb.disruptionsAllowed > 0)
    else check_pdb_loop rest pod

/-- `_check_pdb_allows_eviction`: list the PDBs in the pod's namespace;
an `ApiException` is caught and defaults to allow (fail-open); otherwise
the loop above decides. -/
def check_pdb_allows_eviction (r : Except Unit (List PDB)) (pod : Pod) : Bool :=
  match r with
  | Except.error _ => true
  | Except.ok pdbs => check_pdb_loop pdbs pod

/-- The admission predicate as the spec words it (§4.2 "PDB admission"):
every PDB in the namespace whose selector matches the pod must have
`disruptionsAllowed > 0`; no matching PDB, or failure to list, is
admission.  Written from the spec, for comparison with
`check_pdb_allows_eviction` (the code). -/
def pdb_admission_spec (r : Except Unit (List PDB)) (pod : Pod) : Bool :=
  match r with
  | Except.error _ => true
  | Except.ok pdbs =>
    pdbs.all (fun pdb =>
      !selector_matches_pod pdb.matchLabels pod || decide (pdb.disruptionsAllowed > 0))

/-- The polling loop of `_verify_pods_healthy` for one owner:
`while waited < 60`: if the readiness check succeeds, break (returning
the current `waited`); else sleep 5 s and add 5 to `waited`.  `check w`
is the readiness read at elapsed time `w` — for a ReplicaSet or
StatefulSet owner it is `status.readyReplicas ≥ spec.replicas` with an
`ApiException` counting as an unsuccessful poll; for any other owner
kind neither branch runs, so the check never succeeds. -/
def poll_owner (check : Nat → Bool) (waited : Nat) : Nat :=
  if waited < 60 then
    if check waited then waited
    else poll_owner check (waited + 5)
  else waited
termination_by 60 - waited
decreasing_by omega

/-- The per-poll readiness check dispatch in `_verify_pods_healthy`:
only the branches for owner kind `ReplicaSet` and `StatefulSet` consult
the cluster (via `ready ns kind name waited`); any other kind has no
branch and the poll cannot succeed. -/
def owner_check (ready : String → String → String → Nat → Bool)
    (ns kind nm : String) (waited : Nat) : Bool :=
  if kind == "ReplicaSet" then ready ns kind nm waited
  else if kind == "StatefulSet" then ready ns kind nm waited
  else false

/-- `_verify_pods_healthy`: for each pod, take its first owner reference
(no owner ⇒ skip the pod); run the 60-second poll; if the loop exhausted
the window (`waited ≥ max_wait`) return `False` for the whole batch,
else move to the next pod; all pods processed ⇒ `True`. -/
def verify_pods_healthy (ready : String → String → String → Nat → Bool) :
    List Pod → Bool
  | [] => true
  | pod :: rest =>
    match get_pod_owner pod with
    | none => verify_pods_healthy ready rest
    | some (kind, nm) =>
      let waited := poll_owner (owner_check ready pod.ns kind nm) 0
      if waited ≥ 60 then false
      else verify_pods_healthy ready rest

/-- The batch split of `_handle_draining`:
`for i in range(0, len(pods), k): batch = pods[i:i+k]`.  The source
raises `ValueError` for step `k = 0` (the spec requires
`maxPodsToMoveAtOnce ≥ 1`); the embedding is only used with `k ≥ 1`. -/
def chunks (k : Nat) (xs : List Pod) : List (List Pod) :=
  match xs with
  | [] => []
  | x :: rest => (x :: rest).take k :: chunks k (rest.drop (k - 1))
termination_by xs.length
decreasing_by simp; omega

/-- One batch iteration of the eviction loop in `_handle_draining`:
each pod's eviction outcome bumps `success_count` or `failed_count`;
after the 30-second settle, a failed `_verify_pods_healthy` on the batch
adds the whole batch size to `failed_count`. -/
def drain_step (evict : Pod → Bool) (verify : List Pod → Bool)
    (acc : Nat × Nat) (batch : List Pod) : Nat × Nat :=
  let s := (batch.filter (fun p => evict p)).length
  let f := (batch.filter (fun p => !evict p)).length
  let fv := if verify batch then 0 else batch.length
  (acc.1 + s, acc.2 + f + fv)

/-- The eviction/verification loop of `_handle_draining` over all
batches.  Returns (success_count, failed_count). -/
def drain_counts (evict : Pod → Bool) (verify : List Pod → Bool)
    (k : Nat) (pods : List Pod) : Nat × Nat :=
  (chunks k pods).foldl (drain_step evict verify) (0, 0)

/-- The extra failures the source books on top of the per-pod outcomes:
the total size of the batches whose health verification failed.  A
specification-side abbreviation used to state what the counters add up
to. -/
def verify_penalty (verify : List Pod → Bool) (batches : List (List Pod)) : Nat :=
  (batches.map (fun b => if verify b then 0 else b.length)).sum

/-- `_start_refresh`: snapshot the fleet via `_get_target_nodes`; an
empty result moves straight to `Completed` with message
"No target nodes found" and `totalNodes = 0`; otherwise `Provisioning`
on the first listed node, with counters and `nodesRefreshed` reset. -/
def start_refresh (nodeList : Except Unit (List String)) (s : Status) : Status :=
  match get_target_nodes nodeList with
  | [] =>
    { s with phase := some "Completed"
             message := some "No target nodes found"
             totalNodes := some 0 }
  | first :: rest =>
    { s with phase := some "Provisioning"
             currentNode := some first
             totalNodes := some (first :: rest).length
             nodesRefreshed := some []
             podsMovedSuccessfully := some 0
             podsMovesFailed := some 0
             message := some ("Provisioning new node for " ++ first) }

/-- `_handle_provisioning`: `list_node()` (uncaught — an `ApiException`
propagates to `reconcile`'s handler, hence `Except String`); count ready
nodes; recompute the fleet; with strictly more ready nodes than fleet
members transition to `Draining`, else sleep 30 s with no status
change.  `allNodes` is the condition list of each node. -/
def handle_provisioning (allNodes : Except String (List (List (String × String))))
    (targetNodes : Except Unit (List String)) (s : Status) : Except String Status :=
  match allNodes with
  | Except.error e => Except.error e
  | Except.ok nodes =>
    let ready := (nodes.filter (fun n => is_node_ready n)).length
    let target := get_target_nodes targetNodes
    if target.length < ready then
      Except.ok { s with phase := some "Draining"
                         message := some ("Draining node " ++ optName s.currentNode) }
    else Except.ok s

/-- `_handle_draining`: if the cluster-health gate fails, record the
pause in `message` (phase unchanged) and sleep; otherwise run the
eviction loop over the (filtered) pods of `currentNode` in batches of
`maxPodsToMoveAtOnce` (default 5), add the counts to the stored
counters, and transition to `Validating`. -/
def handle_draining (allPodPhases : Except Unit (List String))
    (podsOnNode : Except Unit (List Pod))
    (evict : Pod → Bool) (verify : List Pod → Bool)
    (spec : NRSpec) (s : Status) : Status :=
  if !check_cluster_health allPodPhases (spec.minHealthThreshold.getD 80) then
    { s with message := some "Paused: Cluster health below threshold" }
  else
    let pods := get_pods_on_node podsOnNode
    let k := spec.maxPodsToMoveAtOnce.getD 5
    let counts := drain_counts evict verify k pods
    { s with phase := some "Validating"
             podsMovedSuccessfully := some (s.podsMovedSuccessfully.getD 0 + counts.1)
             podsMovesFailed := some (s.podsMovesFailed.getD 0 + counts.2)
             message := some ("Validating pod health after draining " ++ optName s.currentNode) }

/-- `_finalize_refresh`: patch `Completed` with the final
`nodesRefreshed` list, `lastRefreshTime := now`, and a summary message;
then, when a schedule is present, a second patch sets `phase := Idle`. -/
def finalize_refresh (hasSchedule : Bool) (now : Nat)
    (nodes_refreshed : List String) (s : Status) : Status :=
  let s1 := { s with phase := some "Completed"
                     nodesRefreshed := some nodes_refreshed
                     lastRefreshTime := some now
                     message := some ("Successfully refreshed "
                       ++ toString nodes_refreshed.length ++ " nodes") }
  if hasSchedule then { s1 with phase := some "Idle" } else s1

/-- `_handle_validation`: if the health gate passes, append
`currentNode` to `nodesRefreshed`; when the list is still shorter than
`totalNodes`, recompute the fleet and take the first listed node not yet
refreshed as the next `currentNode` (back to `Provisioning`); with no
such node, or with the list no longer shorter, finalize.  A failing gate
transitions to `Failed`. -/
def handle_validation (allPodPhases : Except Unit (List String))
    (targetNodes : Except Unit (List String)) (now : Nat)
    (spec : NRSpec) (s : Status) : Status :=
  if check_cluster_health allPodPhases (spec.minHealthThreshold.getD 80) then
    let nodes_refreshed := (s.nodesRefreshed.getD []) ++ [optName s.currentNode]
    let total_nodes := s.totalNodes.getD 0
    if nodes_refreshed.length < total_nodes then
      let target := get_target_nodes targetNodes
      let remaining := target.filter (fun n => !nodes_refreshed.contains n)
      match remaining with
      | next :: _ =>
        { s with phase := some "Provisioning"
                 currentNode := some next
                 nodesRefreshed := some nodes_refreshed
                 message := some ("Provisioning for next node: " ++ next) }
      | [] => finalize_refresh spec.refreshSchedule.isSome now nodes_refreshed s
    else finalize_refresh spec.refreshSchedule.isSome now nodes_refreshed s
  else
    { s with phase := some "Failed"
             message := some "Validation failed: Cluster health below threshold" }

/-- `_handle_completion`: with a schedule present, move back to `Idle`;
otherwise no status change. -/
def handle_completion (spec : NRSpec) (s : Status) : Status :=
  if spec.refreshSchedule.isSome then { s with phase := some "Idle" } else s

/-- `self.retry_delays`. -/
def retry_delays : List Nat := [30, 60, 120, 300]

/-- `_handle_failure`: while `retryCount` is below the schedule length,
sleep the scheduled delay, then patch `phase := Idle` with the count
incremented; once exhausted, only the message changes ("Max retries
exceeded") — the phase stays `Failed`. -/
def handle_failure (s : Status) : Status :=
  let retry_count := s.retryCount.getD 0
  if retry_count < retry_delays.length then
    { s with phase := some "Idle"
             retryCount := some (retry_count + 1)
             message := some ("Retrying (attempt " ++ toString (retry_count + 1) ++ ")") }
  else
    { s with message := some "Failed: Max retries exceeded" }

/-- The observed cluster facts a single reconcile consumes, one field
per API interaction of the source. -/
structure Env where
  /-- `datetime.utcnow()`. -/
  now : Nat
  /-- `list_node(label_selector=…)` for `_get_target_nodes`. -/
  targetNodes : Except Unit (List String)
  /-- bare `list_node()` in `_handle_provisioning` (uncaught on failure);
  each node is its condition list. -/
  allNodes : Except String (List (List (String × String)))
  /-- `list_pod_for_all_namespaces()` for `_check_cluster_health`;
  each pod is its phase string. -/
  allPodPhases : Except Unit (List String)
  /-- pods on `currentNode` for `_get_pods_on_node`. -/
  podsOnNode : Except Unit (List Pod)
  /-- outcome of `_evict_pod` for each pod (PDB checks plus the eviction
  call). -/
  evict : Pod → Bool
  /-- outcome of `_verify_pods_healthy` for each batch. -/
  verify : List Pod → Bool

/-- The phase dispatch of `reconcile` (`status.get('phase', 'Idle')`);
an unknown phase matches no branch and leaves the status unchanged.  An
exception escaping `_handle_provisioning` reaches `reconcile`'s handler,
which patches `Failed` with the exception text. -/
def dispatch (env : Env) (spec : NRSpec) (s : Status) : Status :=
  let phase := s.phase.getD "Idle"
  if phase == "Idle" then start_refresh env.targetNodes s
  else if phase == "Provisioning" then
    match handle_provisioning env.allNodes env.targetNodes s with
    | Except.ok s2 => s2
    | Except.error e =>
      { s with phase := some "Failed"
               message := some ("Reconciliation error: " ++ e) }
  else if phase == "Draining" then
    handle_draining env.allPodPhases env.podsOnNode env.evict env.verify spec s
  else if phase == "Validating" then
    handle_validation env.allPodPhases env.targetNodes env.now spec s
  else if phase == "Completed" then handle_completion spec s
  else if phase == "Failed" then handle_failure s
  else s

/-- `reconcile`: with a schedule present, first run `_is_refresh_due` —
a malformed cron raises inside `croniter(...)` before any status write,
and `reconcile`'s exception handler patches `Failed` with
`"Reconciliation error: " + str(e)`; a well-formed cron publishes
`nextRefreshTime` (computed from `now`), and a not-due verdict returns
with no further change.  Otherwise dispatch on the current phase. -/
def reconcile (env : Env) (spec : NRSpec) (s : Status) : Status :=
  match spec.refreshSchedule with
  | some (Except.error e) =>
    { s with phase := some "Failed"
             message := some ("Reconciliation error: " ++ e) }
  | some (Except.ok c) =>
    let next_run := cronNext c env.now
    let s1 := { s with nextRefreshTime := some next_run }
    if !is_refresh_due (some c) s.lastRefreshTime env.now then s1
    else dispatch env spec s1
  | none => dispatch env spec s

/-! Concrete fixtures: small objects, pods and environments used to
evaluate the definitions at explicit inputs. -/

/-- A spec with no schedule (one-shot object). -/
def specNoSched : NRSpec := ⟨none, [("role", "worker")], none, none, none⟩

/-- A spec with a daily schedule, `"0 2 * * *"` at minute granularity. -/
def specDaily : NRSpec :=
  ⟨some (Except.ok ⟨1440, 120⟩), [("role", "worker")], none, none, none⟩

/-- A spec whose schedule string does not parse; the payload is the
exception text `croniter` raises. -/
def specBadCron : NRSpec :=
  ⟨some (Except.error "bad cron"), [("role", "worker")], none, none, none⟩

/-- A status in phase `Idle`. -/
def statusIdle : Status := { Status.empty with phase := some "Idle" }

/-- A mid-cycle `Draining` status with zeroed counters and a recorded
last refresh. -/
def statusDrainingW : Status :=
  { Status.empty with
      phase := some "Draining"
      currentNode := some "n1"
      totalNodes := some 1
      nodesRefreshed := some []
      podsMovedSuccessfully := some 0
      podsMovesFailed := some 0
      lastRefreshTime := some 120 }

/-- A `Validating` status captured with a two-node fleet of which none
is refreshed yet. -/
def statusValShrunk : Status :=
  { Status.empty with
      phase := some "Validating"
      currentNode := some "a"
      nodesRefreshed := some []
      totalNodes := some 2 }

/-- A `Validating` status carrying a non-zero `retryCount` from an
earlier failure. -/
def statusRetry2 : Status :=
  { Status.empty with
      phase := some "Validating"
      currentNode := some "a"
      nodesRefreshed := some []
      totalNodes := some 1
      retryCount := some 2 }

/-- A quiet cluster: every list call succeeds and is empty or healthy,
evictions succeed, batches verify. -/
def envBase : Env :=
  ⟨1560, Except.ok [], Except.ok [], Except.ok [], Except.ok [],
   fun _ => true, fun _ => true⟩

/-- `envBase` with the target-node listing failing (`ApiException`). -/
def envListFail : Env := { envBase with targetNodes := Except.error () }

/-- A ReplicaSet-owned pod with label `app=x`. -/
def podA : Pod := ⟨"p1", "default", [("app", "x")], [("ReplicaSet", "rs1")]⟩

/-- A pod whose first owner reference is a `Job` — neither ReplicaSet
nor StatefulSet. -/
def podJob : Pod := ⟨"pj", "default", [], [("Job", "job1")]⟩

/-- A PDB matching `app=x` with one disruption allowed. -/
def pdbAllow : PDB := ⟨"pdb-allow", some [("app", "x")], 1⟩

/-- A PDB matching `app=x` with no disruption allowed. -/
def pdbDeny : PDB := ⟨"pdb-deny", some [("app", "x")], 0⟩

/-! Helper lemmas shared by the claim theorems. -/

/-- `croniter.get_next` is strictly after the base time. -/
theorem cronNext_gt (c : Cron) (t : Nat) : t < cronNext c t := by
  unfold cronNext
  by_cases h : c.period = 0
  · simp [h]
  · have hp : 0 < c.period := Nat.pos_of_ne_zero h
    have hmod := Nat.div_add_mod t c.period
    have hlt := Nat.mod_lt t hp
    have hcomm : (t / c.period) * c.period = c.period * (t / c.period) :=
      Nat.mul_comm _ _
    simp only [h, if_false]
    split <;> omega

/-- The batches of `_handle_draining` partition the pod list: their
concatenation is the list itself (for a positive batch size). -/
theorem chunks_join (k : Nat) (hk : 1 ≤ k) (xs : List Pod) :
    (chunks k xs).flatten = xs := by
  match xs with
  | [] => rw [chunks]; rfl
  | x :: rest =>
    rw [chunks]
    have ih := chunks_join k hk (rest.drop (k - 1))
    obtain ⟨k2, rfl⟩ : ∃ k2, k = k2 + 1 := ⟨k - 1, by omega⟩
    simp only [Nat.add_sub_cancel] at ih
    simp only [List.flatten_cons, ih, List.take_succ_cons, Nat.add_sub_cancel]
    simp [List.take_append_drop]
termination_by xs.length
decreasing_by simp; omega

/-- Splitting a list by a Boolean predicate preserves its length. -/
theorem length_filter_split (p : Pod → Bool) (l : List Pod) :
    (l.filter (fun x => p x)).length + (l.filter (fun x => !p x)).length
      = l.length := by
  induction l with
  | nil => rfl
  | cons x xs ih =>
    by_cases h : p x <;> simp [List.filter_cons, h] <;> omega

/-- The eviction fold: starting from any accumulator, the two counters
together grow by the batch sizes plus the verification penalty. -/
theorem drain_foldl_sum (evict : Pod → Bool) (verify : List Pod → Bool)
    (batches : List (List Pod)) (a b : Nat) :
    (batches.foldl (drain_step evict verify) (a, b)).1
      + (batches.foldl (drain_step evict verify) (a, b)).2
      = a + b + (batches.map (fun batch => batch.length)).sum
          + verify_penalty verify batches := by
  induction batches generalizing a b with
  | nil => simp [verify_penalty]
  | cons batch rest ih =>
    simp only [List.foldl_cons, List.map_cons, List.sum_cons, verify_penalty] at *
    rw [drain_step]
    rw [ih]
    have hsplit := length_filter_split evict batch
    by_cases hv : verify batch <;> simp [hv] <;> omega

/-- The 60-second poll loop breaks before the deadline exactly when
some poll (at 5-second steps from the starting offset, strictly inside
the window) succeeds. -/
theorem poll_owner_lt_iff (check : Nat → Bool) (w : Nat) :
    poll_owner check w < 60
      ↔ ∃ i, w + 5 * i < 60 ∧ check (w + 5 * i) = true := by
  by_cases hw : w < 60
  · rw [poll_owner, if_pos hw]
    by_cases hc : check w = true
    · rw [if_pos hc]
      constructor
      · intro _
        exact ⟨0, by simpa using hw, by simpa using hc⟩
      · intro _
        exact hw
    · rw [if_neg hc]
      rw [poll_owner_lt_iff check (w + 5)]
      constructor
      · rintro ⟨i, hi, hci⟩
        refine ⟨i + 1, by omega, ?_⟩
        rw [show w + 5 * (i + 1) = w + 5 + 5 * i by omega]
        exact hci
      · rintro ⟨i, hi, hci⟩
        match i with
        | 0 =>
          rw [Nat.mul_zero, Nat.add_zero] at hci
          exact absurd hci hc
        | j + 1 =>
          refine ⟨j, by omega, ?_⟩
          rw [show w + 5 + 5 * j = w + 5 * (j + 1) by omega]
          exact hci
  · rw [poll_owner, if_neg hw]
    constructor
    · intro h
      exact absurd h hw
    · rintro ⟨i, hi, _⟩
      exact absurd (by omega : w < 60) hw
termination_by 60 - w
decreasing_by omega

/-- `_start_refresh` never touches `retryCount`. -/
theorem start_refresh_retryCount (r : Except Unit (List String)) (s : Status) :
    (start_refresh r s).retryCount = s.retryCount := by
  rw [start_refresh]
  match get_target_nodes r with
  | [] => rfl
  | first :: rest => rfl

/-- `_finalize_refresh` never touches `retryCount` — in particular the
`Completed` patch does not reset it. -/
theorem finalize_refresh_retryCount (b : Bool) (now : Nat)
    (nr : List String) (s : Status) :
    (finalize_refresh b now nr s).retryCount = s.retryCount := by
  rw [finalize_refresh]
  match b with
  | true => rfl
  | false => rfl

/-- `_handle_validation` never touches `retryCount`. -/
theorem handle_validation_retryCount (ph tn : Except Unit (List String))
    (now : Nat) (spec : NRSpec) (s : Status) :
    (handle_validation ph tn now spec s).retryCount = s.retryCount := by
  simp only [handle_validation]
  split
  · split
    · split
      · rfl
      · rw [finalize_refresh_retryCount]
    · rw [finalize_refresh_retryCount]
  · rfl

/-- `_handle_draining` never touches `retryCount`. -/
theorem handle_draining_retryCount (ph : Except Unit (List String))
    (pn : Except Unit (List Pod)) (e : Pod → Bool) (v : List Pod → Bool)
    (spec : NRSpec) (s : Status) :
    (handle_draining ph pn e v spec s).retryCount = s.retryCount := by
  rw [handle_draining]
  split <;> rfl

/-- The phase dispatch of `reconcile` never lowers `retryCount`: every
handler leaves it unchanged except `_handle_failure`, which increments
it. -/
theorem dispatch_retryCount_mono (env : Env) (spec : NRSpec) (s : Status) :
    s.retryCount.getD 0 ≤ (dispatch env spec s).retryCount.getD 0 := by
  simp only [dispatch]
  split
  · rw [start_refresh_retryCount]
  · split
    · split
      · next s2 heq =>
        rw [handle_provisioning.eq_def] at heq
        split at heq
        · exact absurd heq (by simp)
        · dsimp only at heq
          split at heq <;> (injection heq with h2; subst h2; exact Nat.le_refl _)
      · exact Nat.le_refl _
    · split
      · rw [handle_draining_retryCount]
      · split
        · rw [handle_validation_retryCount]
        · split
          · rw [handle_completion]
            split <;> exact Nat.le_refl _
          · split
            · by_cases h : s.retryCount.getD 0 < retry_delays.length
              · simp [handle_failure, h]
              · simp [handle_failure, h]
            · exact Nat.le_refl _

/-! Claim theorems. -/

/-- C1: the claim (and §4.3) says the due-verdict with a recorded
`lastRefreshTime` is `now ≥ nextFire` computed FROM `lastRefreshTime`.
The code computes `next_run` from `now` instead (its parsed
`last_refresh_dt` is never used).  At the failing input — daily 02:00
schedule, last refresh yesterday 02:00 (minute 120), now today 02:00
(minute 1560) — the claim says due (`1560 ≥ cronNext 120 = 1560`), but
the code compares against `cronNext 1560 = 3000` and says not due. -/
theorem c1_due_verdict_code_vs_spec :
    is_refresh_due (some ⟨1440, 120⟩) (some 120) 1560 = false ∧
    is_refresh_due_spec (some ⟨1440, 120⟩) (some 120) 1560 = true ∧
    cronNext ⟨1440, 120⟩ 120 = 1560 ∧
    cronNext ⟨1440, 120⟩ 1560 = 3000 := by
  decide

/-- C2 counterexample: with the node listing failing (`ApiException`
caught in `_get_target_nodes`, which returns `[]`), a reconcile of an
`Idle` object does change the phase — to `Completed`. -/
theorem c2_counterexample :
    (reconcile envListFail specNoSched statusIdle).phase = some "Completed" ∧
    statusIdle.phase = some "Idle" := by
  decide

/-- C2 (amended): a failed node-list during the Idle transition is
indistinguishable from an empty fleet: the reconcile moves the object
to `Completed` with message "No target nodes found" and
`totalNodes = 0`, rather than requeueing with the phase unchanged. -/
theorem c2_nodelist_fail_completes (env : Env) (spec : NRSpec) (s : Status)
    (hsched : spec.refreshSchedule = none)
    (hphase : s.phase = some "Idle")
    (hfail : env.targetNodes = Except.error ()) :
    reconcile env spec s
      = { s with phase := some "Completed"
                 message := some "No target nodes found"
                 totalNodes := some 0 } := by
  rw [reconcile.eq_def, hsched]
  simp [dispatch, hphase, hfail, start_refresh, get_target_nodes]

/-- C2 witness: the amended theorem evaluated at the concrete failing
listing. -/
theorem c2_nodelist_fail_completes_witness :
    reconcile envListFail specNoSched statusIdle
      = { statusIdle with phase := some "Completed"
                          message := some "No target nodes found"
                          totalNodes := some 0 } :=
  c2_nodelist_fail_completes envListFail specNoSched statusIdle rfl rfl rfl

/-- C8 counterexample: a reconcile that takes a `Validating` status with
`retryCount = 2` to `Completed` leaves `retryCount` at 2 — it is not
reset. -/
theorem c8_counterexample :
    (reconcile envBase specNoSched statusRetry2).phase = some "Completed" ∧
    (reconcile envBase specNoSched statusRetry2).retryCount = some 2 ∧
    (reconcile envBase specNoSched statusRetry2).retryCount ≠ some 0 := by
  decide

/-- C8 (amended): `retryCount` is monotonically non-decreasing across
every reconcile, but it is NEVER reset: the `Completed` patch of
`_finalize_refresh` leaves it untouched, so a later `Failed` phase
resumes the retry schedule where the previous failure left off. -/
theorem c8_retryCount_mono_never_reset (env : Env) (spec : NRSpec) (s : Status)
    (b : Bool) (now : Nat) (nr : List String) :
    s.retryCount.getD 0 ≤ (reconcile env spec s).retryCount.getD 0 ∧
    (finalize_refresh b now nr s).retryCount = s.retryCount := by
  refine ⟨?_, finalize_refresh_retryCount b now nr s⟩
  rw [reconcile.eq_def]
  split
  · exact Nat.le_refl _
  · next c hc =>
    dsimp only
    split
    · exact Nat.le_refl _
    · exact dispatch_retryCount_mono env spec
        { s with nextRefreshTime := some (cronNext c env.now) }
  · exact dispatch_retryCount_mono env spec s

/-- C9 counterexample: a malformed cron expression does transition to
`Failed`, but the message is the generic reconciliation-error text, not
"Invalid schedule". -/
theorem c9_counterexample :
    (reconcile envBase specBadCron statusIdle).phase = some "Failed" ∧
    (reconcile envBase specBadCron statusIdle).message
      = some "Reconciliation error: bad cron" ∧
    (reconcile envBase specBadCron statusIdle).message ≠ some "Invalid schedule" := by
  decide

/-- C9 (amended): a malformed cron expression raises inside
`croniter(...)` before any status write; `reconcile`'s exception handler
transitions to `Failed` with message `"Reconciliation error: "` followed
by the exception text. -/
theorem c9_bad_cron_fails (env : Env) (spec : NRSpec) (s : Status) (e : String)
    (hs : spec.refreshSchedule = some (Except.error e)) :
    reconcile env spec s
      = { s with phase := some "Failed"
                 message := some ("Reconciliation error: " ++ e) } := by
  rw [reconcile.eq_def, hs]

/-- C9 witness: the amended theorem evaluated at the concrete malformed
schedule. -/
theorem c9_bad_cron_fails_witness :
    reconcile envBase specBadCron statusIdle
      = { statusIdle with phase := some "Failed"
                          message := some ("Reconciliation error: " ++ "bad cron") } :=
  c9_bad_cron_fails envBase specBadCron statusIdle "bad cron" rfl

/-- C10: with a present, well-formed schedule judged not due, `reconcile`
returns before any phase handler runs: whatever the current phase, the
only status change is `nextRefreshTime`, set to the cron tick computed
from `now`. -/
theorem c10_not_due_frame (env : Env) (spec : NRSpec) (s : Status) (c : Cron)
    (hs : spec.refreshSchedule = some (Except.ok c))
    (hnd : is_refresh_due (some c) s.lastRefreshTime env.now = false) :
    reconcile env spec s = { s with nextRefreshTime := some (cronNext c env.now) } := by
  rw [reconcile.eq_def, hs]
  simp [hnd]

/-- C10 witness: the frame theorem at the daily schedule, a mid-cycle
`Draining` status with a recorded last refresh, at 01:50 the next day. -/
theorem c10_not_due_frame_witness :
    reconcile { envBase with now := 1550 } specDaily statusDrainingW
      = { statusDrainingW with nextRefreshTime := some (cronNext ⟨1440, 120⟩ 1550) } :=
  c10_not_due_frame { envBase with now := 1550 } specDaily statusDrainingW
    ⟨1440, 120⟩ rfl (by decide)

/-- C3 counterexample: a drain pass over a single pod whose eviction
succeeds but whose batch fails health verification raises the two
counters by a combined 2, not by the pod count 1: the batch size is
booked as failures on top of the per-pod outcomes. -/
theorem c3_counterexample :
    (handle_draining (Except.ok ["Running"]) (Except.ok [podA])
        (fun _ => true) (fun _ => false) specNoSched statusDrainingW).podsMovedSuccessfully
      = some 1 ∧
    (handle_draining (Except.ok ["Running"]) (Except.ok [podA])
        (fun _ => true) (fun _ => false) specNoSched statusDrainingW).podsMovesFailed
      = some 1 ∧
    (get_pods_on_node (Except.ok [podA])).length = 1 := by
  refine ⟨?_, ?_, by decide⟩ <;>
    simp [handle_draining, check_cluster_health, get_pods_on_node, is_daemonset_pod,
      drain_counts, chunks.eq_def, drain_step, statusDrainingW, podA, specNoSched,
      Status.empty]

/-- C3 (amended): over one drain pass the two counters together grow by
the number of pods PLUS the total size of every batch that failed
health verification (`_handle_draining` adds `len(batch)` on top of the
per-pod outcomes). -/
theorem c3_drain_counter_sum (evict : Pod → Bool) (verify : List Pod → Bool)
    (k : Nat) (pods : List Pod) (hk : 1 ≤ k) :
    (drain_counts evict verify k pods).1 + (drain_counts evict verify k pods).2
      = pods.length + verify_penalty verify (chunks k pods) := by
  rw [drain_counts, drain_foldl_sum]
  have hfl := chunks_join k hk pods
  have hlen : ((chunks k pods).map (fun batch => batch.length)).sum = pods.length := by
    conv_rhs => rw [← hfl]
    rw [List.length_flatten]
  rw [hlen]
  omega

/-- C3 witness: the amended equation at a one-pod drain with failing
verification. -/
theorem c3_drain_counter_sum_witness :
    (drain_counts (fun _ => true) (fun _ => false) 5 [podA]).1
        + (drain_counts (fun _ => true) (fun _ => false) 5 [podA]).2
      = [podA].length + verify_penalty (fun _ => false) (chunks 5 [podA]) :=
  c3_drain_counter_sum (fun _ => true) (fun _ => false) 5 [podA] (by decide)

/-- C4 counterexample: a `Validating` status whose cycle started with
`totalNodes = 2` but whose recomputed fleet has shrunk to the single
already-targeted node finalizes to `Completed` with
`nodesRefreshed = ["a"]` — shorter than `totalNodes` although the fleet
was not empty. -/
theorem c4_counterexample :
    (handle_validation (Except.ok ["Running"]) (Except.ok ["a"]) 99
        specNoSched statusValShrunk).phase = some "Completed" ∧
    (handle_validation (Except.ok ["Running"]) (Except.ok ["a"]) 99
        specNoSched statusValShrunk).nodesRefreshed = some ["a"] ∧
    statusValShrunk.totalNodes = some 2 ∧
    (["a"] : List String).length ≠ 2 ∧ (2 : Nat) ≠ 0 := by
  decide

/-- C4 (amended): when a successful validation reaches `Completed`, then
either the refreshed list (with the current node appended) has reached
`totalNodes`, or the recomputed fleet contained no node outside it —
the fleet shrank mid-cycle or its listing failed; `Completed` with a
shorter list is therefore possible with a non-empty starting fleet. -/
theorem c4_completed_dichotomy (ph tn : Except Unit (List String))
    (now : Nat) (spec : NRSpec) (s : Status)
    (hcomp : (handle_validation ph tn now spec s).phase = some "Completed") :
    s.totalNodes.getD 0 ≤ ((s.nodesRefreshed.getD []) ++ [optName s.currentNode]).length
      ∨ (get_target_nodes tn).filter
          (fun n => !((s.nodesRefreshed.getD []) ++ [optName s.currentNode]).contains n) = [] := by
  simp only [handle_validation] at hcomp
  split at hcomp
  · split at hcomp
    · split at hcomp
      · simp at hcomp
      · next heq => exact Or.inr heq
    · next h => exact Or.inl (by omega)
  · simp at hcomp

/-- C4 witness: the dichotomy at the shrunk-fleet input; the right
disjunct holds there. -/
theorem c4_completed_dichotomy_witness :
    statusValShrunk.totalNodes.getD 0
        ≤ ((statusValShrunk.nodesRefreshed.getD [])
            ++ [optName statusValShrunk.currentNode]).length
      ∨ (get_target_nodes (Except.ok ["a"])).filter
          (fun n => !((statusValShrunk.nodesRefreshed.getD [])
            ++ [optName statusValShrunk.currentNode]).contains n) = [] :=
  c4_completed_dichotomy (Except.ok ["Running"]) (Except.ok ["a"]) 99
    specNoSched statusValShrunk (by decide)

/-- C5 counterexample: with two PDBs matching the pod — the first
allowing a disruption, the second allowing none — the code admits the
eviction (the first match short-circuits), while the claim's
all-matching-PDBs admission denies it. -/
theorem c5_counterexample :
    check_pdb_allows_eviction (Except.ok [pdbAllow, pdbDeny]) podA = true ∧
    pdb_admission_spec (Except.ok [pdbAllow, pdbDeny]) podA = false := by
  decide

/-- C5 (amended): admission is decided by the FIRST PDB in list order
whose selector matches the pod: it admits iff that PDB has
`disruptionsAllowed > 0`.  No matching PDB, or a failed PDB listing
(fail-open), is admission. -/
theorem c5_first_matching_pdb_decides (r : Except Unit (List PDB)) (pod : Pod) :
    check_pdb_allows_eviction r pod
      = match r with
        | Except.error _ => true
        | Except.ok pdbs =>
          match pdbs.find? (fun pdb => selector_matches_pod pdb.matchLabels pod) with
          | none => true
          | some pdb => decide (pdb.disruptionsAllowed > 0) := by
  match r with
  | Except.error _ => rfl
  | Except.ok pdbs =>
    simp only [check_pdb_allows_eviction]
    induction pdbs with
    | nil => rfl
    | cons pdb rest ih =>
      rw [check_pdb_loop]
      by_cases h : selector_matches_pod pdb.matchLabels pod = true
      · rw [if_pos h,
          List.find?_cons_of_pos (p := fun q => selector_matches_pod q.matchLabels pod) rest h]
      · rw [if_neg h,
          List.find?_cons_of_neg (p := fun q => selector_matches_pod q.matchLabels pod) rest
            (by simpa using h),
          ih]

/-- C6 counterexample: a pod whose first owner reference is a `Job` —
neither ReplicaSet nor StatefulSet — exhausts the 60-second window (no
branch can ever see it ready, even in a fully healthy cluster) and
fails the whole batch, although the claim says such pods never cause a
verification failure. -/
theorem c6_counterexample :
    verify_pods_healthy (fun _ _ _ _ => true) [podJob] = false := by
  have hlt : ¬ poll_owner (owner_check (fun _ _ _ _ => true) "default" "Job" "job1") 0 < 60 := by
    rw [poll_owner_lt_iff]
    rintro ⟨i, _, hc⟩
    simp [owner_check] at hc
  simp only [verify_pods_healthy, get_pod_owner, podJob, List.head?]
  rw [if_pos (by omega)]

/-- C6 (amended): the batch passes iff every pod does, where a pod with
no owner reference is skipped; the poll loop breaks before the deadline
iff one of the twelve 5-second polls (at 0, 5, …, 55 s) succeeds; and a
first owner of any kind other than ReplicaSet or StatefulSet can never
satisfy a poll — such a pod always times out and fails the batch. -/
theorem c6_verification_characterization
    (ready : String → String → String → Nat → Bool) (pods : List Pod)
    (check : Nat → Bool) (ns kind nm : String) (w : Nat)
    (hk1 : kind ≠ "ReplicaSet") (hk2 : kind ≠ "StatefulSet") :
    (verify_pods_healthy ready pods
      = pods.all (fun pod =>
          match get_pod_owner pod with
          | none => true
          | some kn => decide (poll_owner (owner_check ready pod.ns kn.1 kn.2) 0 < 60))) ∧
    (poll_owner check 0 < 60 ↔ ∃ i, i < 12 ∧ check (5 * i) = true) ∧
    owner_check ready ns kind nm w = false := by
  refine ⟨?_, ?_, ?_⟩
  · induction pods with
    | nil => rfl
    | cons pod rest ih =>
      rw [verify_pods_healthy]
      cases h : get_pod_owner pod with
      | none => simp [h, ih]
      | some kn =>
        obtain ⟨kind2, nm2⟩ := kn
        simp only [List.all_cons, h]
        by_cases hw : poll_owner (owner_check ready pod.ns kind2 nm2) 0 ≥ 60
        · rw [if_pos hw]
          have hnot : ¬ poll_owner (owner_check ready pod.ns kind2 nm2) 0 < 60 := by omega
          simp [hnot]
        · rw [if_neg hw]
          have hyes : poll_owner (owner_check ready pod.ns kind2 nm2) 0 < 60 := by omega
          simp [hyes, ih]
  · rw [poll_owner_lt_iff]
    constructor
    · rintro ⟨i, hi, hc⟩
      exact ⟨i, by omega, by simpa using hc⟩
    · rintro ⟨i, hi, hc⟩
      exact ⟨i, by omega, by simpa using hc⟩
  · rw [owner_check]
    rw [if_neg (by simpa using hk1), if_neg (by simpa using hk2)]

/-- C6 witness: the characterization applied at a Job-owned pod, the
never-ready check, and the `Job` owner kind. -/
theorem c6_verification_characterization_witness :
    (verify_pods_healthy (fun _ _ _ _ => true) [podJob]
      = [podJob].all (fun pod =>
          match get_pod_owner pod with
          | none => true
          | some kn =>
            decide (poll_owner (owner_check (fun _ _ _ _ => true) pod.ns kn.1 kn.2) 0 < 60))) ∧
    (poll_owner (fun _ => false) 0 < 60
      ↔ ∃ i, i < 12 ∧ (fun _ => false : Nat → Bool) (5 * i) = true) ∧
    owner_check (fun _ _ _ _ => true) "default" "Job" "job1" 0 = false :=
  c6_verification_characterization (fun _ _ _ _ => true) [podJob] (fun _ => false)
    "default" "Job" "job1" 0 (by decide) (by decide)

/-- Concrete string-order facts (the kernel cannot evaluate
`String.ltb`, so they go through `toList`). -/
theorem str_a_lt_b : ("a" : String) < "b" := by
  rw [String.lt_iff_toList_lt]
  decide

/-- The fleet listing `["a", "b"]` is sorted. -/
theorem fleet_ab_sorted : (["a", "b"] : List String).Sorted (· ≤ ·) := by
  rw [List.sorted_cons]
  refine ⟨?_, List.sorted_singleton _⟩
  intro b hb
  rw [List.mem_singleton] at hb
  rw [hb]
  exact le_of_lt str_a_lt_b

/-- C7 counterexample: the code never sorts — `_start_refresh` takes the
head of the listing as it came from the API.  When the listing is
`["b", "a"]`, the first `currentNode` is `"b"` although `"a"` is a
lexicographically smaller fleet member. -/
theorem c7_counterexample :
    (start_refresh (Except.ok ["b", "a"]) statusIdle).currentNode = some "b" ∧
    "a" ∈ ["b", "a"] ∧ "a" < "b" ∧ "b" ≠ "a" := by
  refine ⟨rfl, by decide, str_a_lt_b, by decide⟩

/-- C7 (amended): nodes are cycled in node-list order — `_start_refresh`
takes the head of the listing, and a successful `_handle_validation`
takes the first listed node not yet refreshed.  Only when the listing is
lexicographically sorted are these the least fleet member and the least
unrefreshed fleet member. -/
theorem c7_list_order_cycling (fleet : List String) (s s2 : Status)
    (ph : Except Unit (List String)) (now : Nat) (spec : NRSpec)
    (first next : String) (rest more : List String)
    (hsorted : fleet.Sorted (· ≤ ·))
    (hfleet : fleet = first :: rest)
    (hhealthy : check_cluster_health ph (spec.minHealthThreshold.getD 80) = true)
    (hshort : ((s2.nodesRefreshed.getD []) ++ [optName s2.currentNode]).length
        < s2.totalNodes.getD 0)
    (hrem : fleet.filter
        (fun n => !((s2.nodesRefreshed.getD []) ++ [optName s2.currentNode]).contains n)
      = next :: more) :
    ((start_refresh (Except.ok fleet) s).currentNode = some first ∧
      ∀ x ∈ fleet, first ≤ x) ∧
    ((handle_validation ph (Except.ok fleet) now spec s2).currentNode = some next ∧
      ∀ x ∈ fleet,
        ((s2.nodesRefreshed.getD []) ++ [optName s2.currentNode]).contains x = false →
          next ≤ x) := by
  constructor
  · constructor
    · rw [hfleet]
      rfl
    · intro x hx
      rw [hfleet] at hsorted hx
      rw [List.sorted_cons] at hsorted
      rcases List.mem_cons.mp hx with hx1 | hx2
      · exact le_of_eq hx1.symm
      · exact hsorted.1 x hx2
  · have hpair : (fleet.filter
        (fun n => !((s2.nodesRefreshed.getD []) ++ [optName s2.currentNode]).contains n)).Sorted
          (· ≤ ·) := List.Pairwise.filter _ hsorted
    rw [hrem, List.sorted_cons] at hpair
    constructor
    · simp only [handle_validation, hhealthy, if_true, get_target_nodes]
      rw [if_pos hshort, hrem]
    · intro x hx hcx
      have hxf : x ∈ fleet.filter
          (fun n => !((s2.nodesRefreshed.getD []) ++ [optName s2.currentNode]).contains n) :=
        List.mem_filter.mpr ⟨hx, by simp only [hcx, Bool.not_false]⟩
      rw [hrem] at hxf
      rcases List.mem_cons.mp hxf with hx1 | hx2
      · exact le_of_eq hx1.symm
      · exact hpair.1 x hx2

/-- C7 witness: the ordering theorem at the sorted two-node fleet
`["a", "b"]` with `"a"` already refreshed. -/
theorem c7_list_order_cycling_witness :
    ((start_refresh (Except.ok ["a", "b"]) statusIdle).currentNode = some "a" ∧
      ∀ x ∈ ["a", "b"], "a" ≤ x) ∧
    ((handle_validation (Except.ok ["Running"]) (Except.ok ["a", "b"]) 99
        specNoSched statusValShrunk).currentNode = some "b" ∧
      ∀ x ∈ ["a", "b"],
        ((statusValShrunk.nodesRefreshed.getD [])
            ++ [optName statusValShrunk.currentNode]).contains x = false →
          "b" ≤ x) :=
  c7_list_order_cycling ["a", "b"] statusIdle statusValShrunk
    (Except.ok ["Running"]) 99 specNoSched "a" "b" ["b"] []
    fleet_ab_sorted rfl (by decide) (by decide) (by decide)

end NodeRefresh
